import Mathlib

/-!
Shallow embedding of the asset-management and scene-synchronization subsystem
of the SimCity Three.js clone (`src/scripts/assetManager.ts` together with the
scene manager it serves).

Modelling decisions:
* A THREE material is a record of the channels the program touches
  (`color`, `emissive`, `transparent`).  Materials live in a heap
  `Nat → Material`; a material *reference* is its heap index, so reference
  sharing/freshness (the `cloneMesh` material-clone loop) is observable.
* A THREE mesh / object tree is a rose tree (`MTree`/`MForest`) whose nodes
  carry a material reference; `mesh.traverse` is recursion over the tree.
* Rotations are kept in degrees (the source multiplies by `DEG2RAD` before
  storing; that multiplication is injective, so nothing is lost).
* Thrown JS exceptions (e.g. `this.meshes[name].clone()` when `name` is
  absent) are `Except.error ()`; `console.warn` paths that return `null`
  are `Except.ok none`.
* The per-frame loop of `applyChanges` is a fold over the coordinate list
  `(x, y), x < size, y < size` in source order; scene-graph mutations and
  vehicle-graph notifications are recorded in an event list.
-/

namespace SimCity

/-- The channels of a THREE material that the program reads or writes. -/
structure Material where
  color : Nat
  emissive : Nat
  transparent : Bool
deriving Repr, DecidableEq

mutual

/-- A THREE object tree: each node carries a material reference (heap index). -/
inductive MTree where
  | node (matId : Nat) (children : MForest)
deriving Repr, DecidableEq

/-- The children list of an `MTree` node. -/
inductive MForest where
  | nil
  | cons (head : MTree) (tail : MForest)
deriving Repr, DecidableEq

end

/-- The material reference of the root object (`mesh.material`). -/
def MTree.rootId : MTree → Nat
  | .node i _ => i

mutual

/-- All material references in a tree, root first (`mesh.traverse` order). -/
def MTree.matIds : MTree → List Nat
  | .node i cs => i :: MForest.matIds cs

/-- All material references in a forest. -/
def MForest.matIds : MForest → List Nat
  | .nil => []
  | .cons t ts => MTree.matIds t ++ MForest.matIds ts

end

/-- `material.clone()` followed by `material.transparent = transparent`:
a copy of the material with the requested transparency flag. -/
def cloneMat (m : Material) (transparent : Bool) : Material :=
  { m with transparent := transparent }

mutual

/-- `mesh.clone()` followed by the `traverse` loop of `cloneMesh`: structurally
copies the tree, and for every node clones its material into a fresh heap cell
(`obj.material = obj.material.clone()`) and sets
`obj.material.transparent = transparent`.  Returns the new tree, the next
fresh index, and the updated heap. -/
def cloneTree (transparent : Bool) : MTree → Nat → (Nat → Material) → MTree × Nat × (Nat → Material)
  | .node i cs, fresh, h =>
    let h1 := fun j => if j = fresh then cloneMat (h i) transparent else h j
    let r := cloneForest transparent cs (fresh + 1) h1
    (.node fresh r.1, r.2.1, r.2.2)

/-- `cloneTree` over a children list. -/
def cloneForest (transparent : Bool) : MForest → Nat → (Nat → Material) → MForest × Nat × (Nat → Material)
  | .nil, fresh, h => (.nil, fresh, h)
  | .cons t ts, fresh, h =>
    let r1 := cloneTree transparent t fresh h
    let r2 := cloneForest transparent ts r1.2.1 r1.2.2
    (.cons r1.1 r2.1, r2.2.1, r2.2.2)

end

/-- A fully-loaded template stored in `this.meshes[name]`: the normalized
object tree (position reset to the origin, descriptor rotation applied). -/
structure Template where
  tree : MTree
  rotationDeg : Int
deriving Repr, DecidableEq

/-- The state owned by `AssetManager`: the name → template map and the
material heap together with its allocation counter. -/
structure Assets where
  templates : String → Option Template
  heap : Nat → Material
  nextId : Nat

/-- A building record as the loosely-typed JS object the source casts with
`as unknown as Zone` / `as unknown as Road`: one flat record carrying the
fields of both shapes.  A zone uses `type/style/level/rotation/abandoned/
developed/x/y`; a road uses `type/style/rotation/x/y`. -/
structure Building where
  type : String
  hideTerrain : Bool
  isMeshOutOfDate : Bool
  style : String
  level : Nat
  rotation : Int
  abandoned : Bool
  developed : Bool
  x : Int
  y : Int
deriving Repr, DecidableEq

/-- One world-grid tile. -/
structure Tile where
  x : Int
  y : Int
  building : Option Building
deriving Repr, DecidableEq

/-- A cloned mesh handed to a consumer: which catalog key it was cloned from,
its (per-instance) object tree, and the transform/userData fields the
creators set. -/
structure MeshInstance where
  name : String
  tree : MTree
  posX : Int
  posY : Int
  rotationDeg : Int
  userData : Option Tile
deriving Repr, DecidableEq

/-- `cloneMesh(name, transparent)`: looks up `this.meshes[name]` — on a miss
the JS code throws a `TypeError` reading `.clone` of `undefined`
(`Except.error ()` here) — then deep-clones the tree and gives every node a
freshly cloned material with the requested transparency. -/
def cloneMesh (A : Assets) (name : String) (transparent : Bool) : Except Unit (MeshInstance × Assets) :=
  match A.templates name with
  | none => .error ()
  | some tpl =>
    let r := cloneTree transparent tpl.tree A.nextId A.heap
    .ok ({ name := name, tree := r.1, posX := 0, posY := 0,
           rotationDeg := tpl.rotationDeg, userData := none },
         { A with heap := r.2.2, nextId := r.2.1 })

/-- The model name `createZoneMesh` derives: `{zone.type}-{zone.style}{zone.level}`. -/
def zoneModelName (b : Building) : String :=
  b.type ++ "-" ++ b.style ++ toString b.level

/-- The model name `createRoadMesh` derives: `{road.type}-{road.style}`. -/
def roadModelName (b : Building) : String :=
  b.type ++ "-" ++ b.style

/-- `createZoneMesh(tile)`: clones the `{type}-{style}{level}` template, sets
`userData`, rotation and position from the zone, and — if the zone is
abandoned — overwrites `mesh.material.color` (the root object's material
color channel only) with `0x707070`.  The `if (zone.developed)` branch of
the source is empty (a TODO), so `developed` is read but has no effect. -/
def createZoneMesh (A : Assets) (tile : Tile) : Except Unit (MeshInstance × Assets) :=
  match tile.building with
  | none => .error ()
  | some zone =>
    let modelName := zoneModelName zone
    match cloneMesh A modelName false with
    | .error e => .error e
    | .ok (mesh0, A1) =>
      let mesh := { mesh0 with
        userData := some tile, rotationDeg := zone.rotation,
        posX := zone.x, posY := zone.y }
      if zone.abandoned then
        let rid := mesh.tree.rootId
        .ok (mesh, { A1 with heap := fun j =>
          if j = rid then { A1.heap rid with color := 0x707070 } else A1.heap j })
      else
        .ok (mesh, A1)

/-- `createRoadMesh(tile)`: clones the `{type}-{style}` template and sets
`userData`, rotation and position from the road. -/
def createRoadMesh (A : Assets) (tile : Tile) : Except Unit (MeshInstance × Assets) :=
  match tile.building with
  | none => .error ()
  | some road =>
    match cloneMesh A (roadModelName road) false with
    | .error e => .error e
    | .ok (mesh0, A1) =>
      .ok ({ mesh0 with
             userData := some tile, rotationDeg := road.rotation,
             posX := road.x, posY := road.y }, A1)

/-- `createBuildingMesh(tile)`: `null` for a building-less tile, dispatch on
the building `type` string; unrecognized kinds `console.warn` and return
`null` (`.ok none`) rather than throwing. -/
def createBuildingMesh (A : Assets) (tile : Tile) : Except Unit (Option MeshInstance × Assets) :=
  match tile.building with
  | none => .ok (none, A)
  | some b =>
    if b.type = "residential" ∨ b.type = "commercial" ∨ b.type = "industrial" then
      match createZoneMesh A tile with
      | .error e => .error e
      | .ok (m, A1) => .ok (some m, A1)
    else if b.type = "road" then
      match createRoadMesh A tile with
      | .error e => .error e
      | .ok (m, A1) => .ok (some m, A1)
    else
      .ok (none, A)

/-! ### The loader's readiness barrier (`loadModel` success/error callbacks)

`AssetManager`'s constructor records `modelCount = N` and fires `this.onLoad()`
inside the GLTF success callback exactly when `++loadedModelCount == modelCount`.
The error callback only logs.  We model the externally observable counter
state and count the `onLoad` invocations; a load-completion event is `true`
for the success callback and `false` for the error callback. -/

/-- Counter state of the loader: the `loadedModelCount` field and the number
of times `onLoad` has been invoked. -/
structure LoaderState where
  loadedModelCount : Nat
  fired : Nat
deriving Repr, DecidableEq

/-- One load completion: the success callback increments the counter and
fires `onLoad` iff the counter just reached `modelCount`; the error callback
(`console.error`) changes nothing. -/
def loadStep (modelCount : Nat) (s : LoaderState) (success : Bool) : LoaderState :=
  if success then
    let c := s.loadedModelCount + 1
    { loadedModelCount := c,
      fired := if c = modelCount then s.fired + 1 else s.fired }
  else
    s

/-- Run a sequence of load-completion events from a given state. -/
def runLoads (modelCount : Nat) (s : LoaderState) : List Bool → LoaderState
  | [] => s
  | e :: es => runLoads modelCount (loadStep modelCount s e) es

/-- The loader state right after the constructor: zero completed, zero fires. -/
def initLoader : LoaderState := { loadedModelCount := 0, fired := 0 }

/-- Number of successful completions in an event sequence. -/
def successCount : List Bool → Nat
  | [] => 0
  | true :: es => successCount es + 1
  | false :: es => successCount es

/-! ### Selection / highlight state (`setHighlightedMesh`, `setActiveObject`)

Meshes are identified by their root material reference; `#setMeshEmission`
writes `mesh.material.emissive`, modelled as a map from mesh identity to
emissive color. -/

/-- The selection-relevant state of `SceneManager`: each mesh's
`material.emissive` channel plus the `hoverObject`/`activeObject` fields. -/
structure SelState where
  emissive : Nat → Nat
  hoverObject : Option Nat
  activeObject : Option Nat

/-- `#setMeshEmission(mesh, color)`: no-op on `null`, otherwise
`mesh.material.emissive.setHex(color)`. -/
def setMeshEmission (s : SelState) (mesh : Option Nat) (color : Nat) : SelState :=
  match mesh with
  | none => s
  | some id => { s with emissive := fun j => if j = id then color else s.emissive j }

/-- `setHighlightedMesh(mesh)`: resets the previous hover's emissive to black
when it is not the active object, stores the new hover, and then — with no
check against `activeObject`, despite the adjacent comment — sets the new
hover's emissive to `0x555555`. -/
def setHighlightedMesh (s : SelState) (mesh : Option Nat) : SelState :=
  let s1 :=
    match s.hoverObject with
    | some h => if some h ≠ s.activeObject then setMeshEmission s (some h) 0x000000 else s
    | none => s
  let s2 := { s1 with hoverObject := mesh }
  match mesh with
  | some m => setMeshEmission s2 (some m) 0x555555
  | none => s2

/-- `setActiveObject(object)`: unconditionally clears the previous active
object's emissive, stores the new one, and paints it `0xaaaa55`. -/
def setActiveObject (s : SelState) (obj : Option Nat) : SelState :=
  let s1 := setMeshEmission s s.activeObject 0x000000
  let s2 := { s1 with activeObject := obj }
  setMeshEmission s2 s2.activeObject 0xaaaa55

/-! ### The scene synchronizer (`SceneManager.applyChanges`)

State carried across the per-tile loop: the asset manager, the world model
(`city` — mutable, since the loop clears `isMeshOutOfDate` flags in place),
the 2D `buildings` slot array and the terrain `visible` flags.  Scene-graph
mutations (`root.remove`/`root.add`) and vehicle-graph notifications
(`vehicleGraph.updateTile`) are recorded as events tagged with the loop
coordinates that issued them. -/

/-- Pointwise update of a 2D map at one coordinate. -/
def upd2 {α : Type} (f : Nat → Nat → α) (x y : Nat) (v : α) : Nat → Nat → α :=
  fun a b => if a = x ∧ b = y then v else f a b

/-- The mutable state touched by `applyChanges`. -/
structure SceneState where
  assets : Assets
  citySize : Nat
  city : Nat → Nat → Option Tile
  buildings : Nat → Nat → Option MeshInstance
  terrainVisible : Nat → Nat → Bool

/-- An observable scene mutation or collaborator notification, tagged with
the loop coordinates in effect when it was issued. -/
inductive SceneEvent where
  | removeMesh (x y : Nat) (m : MeshInstance)
  | addMesh (x y : Nat) (m : MeshInstance)
  | vgUpdateTile (x y : Nat) (road : Option Building)
deriving Repr, DecidableEq

/-- The loop coordinates an event is tagged with. -/
def SceneEvent.xy : SceneEvent → Nat × Nat
  | .removeMesh x y _ => (x, y)
  | .addMesh x y _ => (x, y)
  | .vgUpdateTile x y _ => (x, y)

/-- Is this event a `root.remove`? -/
def SceneEvent.isRemove : SceneEvent → Bool
  | .removeMesh _ _ _ => true
  | _ => false

/-- Is this event a `root.add`? -/
def SceneEvent.isAdd : SceneEvent → Bool
  | .addMesh _ _ _ => true
  | _ => false

/-- `!tile?.building?.hideTerrain ?? true`: visible unless the tile holds a
building that hides terrain (`!undefined` is `true`, so the `?? true`
default is dead code). -/
def visibleOf (tile : Option Tile) : Bool :=
  match tile with
  | some t =>
    match t.building with
    | some b => !b.hideTerrain
    | none => true
  | none => true

/-- The stale-rebuild branch of the loop body (`tile.building &&
tile.building.isMeshOutOfDate && existingBuildingMesh`): remove the stale
mesh, mint a fresh one (`root.add(null)` — when the factory yields `null` —
is rejected by THREE with a console error and adds nothing), store it in the
slot, clear the building's flag in place, and notify the vehicle graph when
the building is a road.  The road object passed to `updateTile` is the tile's
building after the flag was cleared. -/
def applyStale (s0 : SceneState) (x y : Nat) (t : Tile) (b : Building) (m : MeshInstance) :
    Except Unit (SceneState × List SceneEvent) :=
  match createBuildingMesh s0.assets t with
  | .error e => .error e
  | .ok (newMesh, A1) =>
    let b1 := { b with isMeshOutOfDate := false }
    let t1 := { t with building := some b1 }
    let s1 := { s0 with
      assets := A1,
      buildings := upd2 s0.buildings x y newMesh,
      city := upd2 s0.city x y (some t1) }
    let evs := [SceneEvent.removeMesh x y m]
      ++ (match newMesh with
          | some nm => [SceneEvent.addMesh x y nm]
          | none => [])
      ++ (if b1.type = "road" then [SceneEvent.vgUpdateTile x y (some b1)] else [])
    .ok (s1, evs)

/-- One iteration of the `applyChanges` double loop at coordinate `(x, y)`:
set the terrain visibility flag, then run the removal branch
(`!tile?.building && existingBuildingMesh`) or the stale-rebuild branch
(the two guards are mutually exclusive). -/
def applyTile (s : SceneState) (x y : Nat) : Except Unit (SceneState × List SceneEvent) :=
  let tile := s.city x y
  let existing := s.buildings x y
  let s0 : SceneState := { s with terrainVisible := upd2 s.terrainVisible x y (visibleOf tile) }
  match tile with
  | none =>
    match existing with
    | some m =>
      .ok ({ s0 with buildings := upd2 s0.buildings x y none },
           [.removeMesh x y m, .vgUpdateTile x y none])
    | none => .ok (s0, [])
  | some t =>
    match t.building with
    | none =>
      match existing with
      | some m =>
        .ok ({ s0 with buildings := upd2 s0.buildings x y none },
             [.removeMesh x y m, .vgUpdateTile x y none])
      | none => .ok (s0, [])
    | some b =>
      if b.isMeshOutOfDate then
        match existing with
        | some m => applyStale s0 x y t b m
        | none => .ok (s0, [])
      else
        .ok (s0, [])

/-- Fold the loop body over a list of coordinates, threading the state and
concatenating the event logs; a thrown exception aborts the pass. -/
def applyTiles (s : SceneState) : List (Nat × Nat) → Except Unit (SceneState × List SceneEvent)
  | [] => .ok (s, [])
  | c :: rest =>
    match applyTile s c.1 c.2 with
    | .error e => .error e
    | .ok (s1, ev1) =>
      match applyTiles s1 rest with
      | .error e => .error e
      | .ok (s2, ev2) => .ok (s2, ev1 ++ ev2)

/-- The coordinates `(x, y)`, `x` outer and `y` inner, both in `[0, n)`,
in source iteration order. -/
def coordList (n : Nat) : List (Nat × Nat) :=
  (List.range n).flatMap (fun x => (List.range n).map (fun y => (x, y)))

/-- `applyChanges(city)`: the double loop over the whole grid. -/
def applyChanges (s : SceneState) : Except Unit (SceneState × List SceneEvent) :=
  applyTiles s (coordList s.citySize)

/-- The state component of an `applyChanges` result (the given default on a
thrown exception). -/
def okStateD (r : Except Unit (SceneState × List SceneEvent)) (d : SceneState) : SceneState :=
  match r with
  | .ok p => p.1
  | .error _ => d

/-- The event log of an `applyChanges` result (empty on a thrown exception). -/
def okEventsD (r : Except Unit (SceneState × List SceneEvent)) : List SceneEvent :=
  match r with
  | .ok p => p.2
  | .error _ => []

/-! ## Theorems -/

/-! ### C1 — hover on the active instance -/

/-- A blank selection state: all emissives black, nothing hovered or active. -/
def selInit : SelState := { emissive := fun _ => 0, hoverObject := none, activeObject := none }

/-- **C1** — evaluation of the code at the failing input.  After
`setActiveObject(1)` the active instance's emissive is the active color
`0xaaaa55`; the claim (and the code's own comment) says a subsequent
`setHighlightedMesh` on that same instance leaves it at `0xaaaa55`, but the
code overwrites it with the hover color `0x555555` because the "unless it is
the active object" check is missing on the highlight side.  The subsequent
`setHighlightedMesh(null)` does leave the emissive unchanged. -/
theorem hover_on_active_overwrites_active_color :
    (setActiveObject selInit (some 1)).emissive 1 = 0xaaaa55 ∧
    (setHighlightedMesh (setActiveObject selInit (some 1)) (some 1)).emissive 1 = 0x555555 ∧
    (setHighlightedMesh (setActiveObject selInit (some 1)) (some 1)).emissive 1 ≠ 0xaaaa55 ∧
    (setHighlightedMesh (setHighlightedMesh (setActiveObject selInit (some 1)) (some 1)) none).emissive 1
      = (setHighlightedMesh (setActiveObject selInit (some 1)) (some 1)).emissive 1 := by
  refine ⟨rfl, rfl, by decide, rfl⟩

/-! ### C2 — the readiness barrier -/

/-- Closed form of a run of load completions: the counter advances by the
number of successes, and `onLoad` fires exactly at the step where the counter
becomes `modelCount` (which requires starting below it). -/
theorem runLoads_closed_form (N : Nat) (es : List Bool) (c f : Nat) :
    runLoads N { loadedModelCount := c, fired := f } es =
      { loadedModelCount := c + successCount es,
        fired := f + if c < N ∧ N ≤ c + successCount es then 1 else 0 } := by
  induction es generalizing c f with
  | nil =>
    have h0 : successCount [] = 0 := rfl
    simp [runLoads, h0, if_neg (by omega : ¬(c < N ∧ N ≤ c))]
  | cons e rest ih =>
    cases e with
    | false =>
      have hstep : loadStep N { loadedModelCount := c, fired := f } false =
          { loadedModelCount := c, fired := f } := by simp [loadStep]
      simp only [runLoads]
      rw [hstep, ih]
      simp only [successCount]
    | true =>
      have hstep : loadStep N { loadedModelCount := c, fired := f } true =
          { loadedModelCount := c + 1, fired := if c + 1 = N then f + 1 else f } := by
        simp [loadStep]
      simp only [runLoads]
      rw [hstep, ih]
      simp only [successCount, LoaderState.mk.injEq]
      constructor
      · omega
      · split_ifs <;> omega

/-- A success count never exceeds the number of completions. -/
theorem successCount_le_length (es : List Bool) : successCount es ≤ es.length := by
  induction es with
  | nil => simp [successCount]
  | cons e rest ih =>
    cases e <;> simp [successCount] <;> omega

/-- A failed completion keeps the success count strictly below the number of
completions. -/
theorem successCount_lt_length_of_mem_false (es : List Bool) (h : false ∈ es) :
    successCount es < es.length := by
  induction es with
  | nil => simp at h
  | cons e rest ih =>
    rcases List.mem_cons.mp h with he | hrest
    · have hle := successCount_le_length rest
      rw [← he]
      simp [successCount]
      omega
    · have := ih hrest
      cases e <;> simp [successCount] <;> omega

/-- **C2**: over any sequence of completions of the `N` issued loads (each
load completes at most once, so at most `N` events), the ready callback
fires at most once; it fires exactly once iff all `N` loads succeeded (with
`N` positive — it fires inside a success callback); at every point where
fewer than `N` loads have completed successfully it has not fired; a load
failure leaves the state (in particular the completion counter) unchanged;
and after any failure it never fires. -/
theorem ready_fires_iff_all_loaded (N : Nat) (es : List Bool) (hlen : es.length ≤ N) :
    (runLoads N initLoader es).fired ≤ 1 ∧
    ((runLoads N initLoader es).fired = 1 ↔ 0 < N ∧ successCount es = N) ∧
    (∀ k, successCount (es.take k) < N → (runLoads N initLoader (es.take k)).fired = 0) ∧
    (∀ s, loadStep N s false = s) ∧
    (false ∈ es → (runLoads N initLoader es).fired = 0) := by
  have hform : ∀ l : List Bool, runLoads N initLoader l =
      { loadedModelCount := successCount l,
        fired := if 0 < N ∧ N ≤ successCount l then 1 else 0 } := by
    intro l
    have := runLoads_closed_form N l 0 0
    simpa [initLoader] using this
  have hS := successCount_le_length es
  refine ⟨?_, ?_, ?_, ?_, ?_⟩
  · rw [hform]; dsimp only; split <;> omega
  · rw [hform]; dsimp only
    constructor
    · intro h
      by_cases hc : 0 < N ∧ N ≤ successCount es
      · exact ⟨hc.1, by omega⟩
      · rw [if_neg hc] at h; omega
    · rintro ⟨hN, hSN⟩
      exact if_pos ⟨hN, by omega⟩
  · intro k hk
    rw [hform]; dsimp only
    exact if_neg (by omega)
  · intro s; simp [loadStep]
  · intro hf
    have hlt := successCount_lt_length_of_mem_false es hf
    rw [hform]; dsimp only
    exact if_neg (by omega)

/-- **C2 witness**: a catalog of 2 resources; both loads succeed and the
callback fires exactly once, while the one-success prefix has not fired. -/
theorem ready_fires_iff_all_loaded_witness :
    (runLoads 2 initLoader [true, true]).fired ≤ 1 ∧
    ((runLoads 2 initLoader [true, true]).fired = 1 ↔ 0 < 2 ∧ successCount [true, true] = 2) ∧
    (∀ k, successCount ([true, true].take k) < 2 →
      (runLoads 2 initLoader ([true, true].take k)).fired = 0) ∧
    (∀ s, loadStep 2 s false = s) ∧
    (false ∈ [true, true] → (runLoads 2 initLoader [true, true]).fired = 0) :=
  ready_fires_iff_all_loaded 2 [true, true] (by decide)

/-! ### C10 — the `developed` flag has no effect on the zone mesh -/

/-- Result equivalence for `createZoneMesh` up to the `userData` back-pointer
(which stores the input tile itself and therefore trivially carries the
input's flags): same thrown/ok status, and on success the same model name,
object tree (hence materials), position, rotation, and the same resulting
asset state (hence the same tint writes). -/
def SameVisual : Except Unit (MeshInstance × Assets) → Except Unit (MeshInstance × Assets) → Prop
  | .error _, .error _ => True
  | .ok (m1, A1), .ok (m2, A2) =>
    m1.name = m2.name ∧ m1.tree = m2.tree ∧ m1.posX = m2.posX ∧ m1.posY = m2.posY ∧
    m1.rotationDeg = m2.rotationDeg ∧ A1 = A2
  | _, _ => False

/-- **C10**: two zone buildings differing only in the `developed` flag produce
the same zone mesh — same model name, tree, position, rotation, and the same
material-heap writes (tint) — because the `if (zone.developed)` branch is
empty.  Only the `userData` field, which stores the input tile itself, can
differ. -/
theorem createZoneMesh_ignores_developed (A : Assets) (t : Tile) (z : Building) (d1 d2 : Bool) :
    SameVisual
      (createZoneMesh A { t with building := some { z with developed := d1 } })
      (createZoneMesh A { t with building := some { z with developed := d2 } }) := by
  simp only [createZoneMesh, zoneModelName]
  cases hcl : cloneMesh A (z.type ++ "-" ++ z.style ++ toString z.level) false with
  | error e => simp [SameVisual]
  | ok p =>
    cases hab : z.abandoned <;> simp [SameVisual]

/-! ### C3 — absent catalog names throw, and the exception propagates -/

/-- An asset state with an empty catalog (no model has loaded yet). -/
def emptyAssets : Assets :=
  { templates := fun _ => none, heap := fun _ => { color := 0, emissive := 0, transparent := false },
    nextId := 0 }

/-- A road building whose mesh is flagged out of date. -/
def cRoad : Building :=
  { type := "road", hideTerrain := true, isMeshOutOfDate := true, style := "straight",
    level := 0, rotation := 0, abandoned := false, developed := false, x := 0, y := 0 }

/-- A 1×1 world holding the stale road, with a cached mesh in its slot, but an
empty catalog: resynchronizing must look up the absent `road-straight`. -/
def cState : SceneState :=
  { assets := emptyAssets, citySize := 1,
    city := fun a b => if a = 0 ∧ b = 0 then some { x := 0, y := 0, building := some cRoad } else none,
    buildings := fun a b =>
      if a = 0 ∧ b = 0 then
        some { name := "road-straight", tree := .node 0 .nil, posX := 0, posY := 0,
               rotationDeg := 0, userData := none }
      else none,
    terrainVisible := fun _ _ => true }

/-- **C3 counterexample**: requesting an instance for a name absent from the
catalog does not yield a `NotFound`-style null result — `this.meshes[name]`
is `undefined` and `.clone()` throws, and the exception propagates through
`createBuildingMesh` and out of the whole `applyChanges` synchronization
pass, contradicting "no exception propagates across the pick/synchronize
boundary". -/
theorem clone_absent_name_throws_through_sync :
    cloneMesh emptyAssets "road-straight" false = .error () ∧
    applyChanges cState = .error () :=
  ⟨rfl, rfl⟩

/-- **C3 amended**: requesting an instance for a name absent from the loaded
catalog throws for that call (it does not return a null result), and the
exception propagates to the caller; only the unrecognized-building-kind path
yields a null result without throwing, leaving the asset state untouched. -/
theorem absent_name_throws_unrecognized_yields_null (A : Assets) (name : String) (tr : Bool)
    (t : Tile) (b : Building)
    (habs : A.templates name = none)
    (hb : t.building = some b)
    (h1 : b.type ≠ "residential") (h2 : b.type ≠ "commercial")
    (h3 : b.type ≠ "industrial") (h4 : b.type ≠ "road") :
    cloneMesh A name tr = .error () ∧ createBuildingMesh A t = .ok (none, A) := by
  constructor
  · simp [cloneMesh, habs]
  · simp [createBuildingMesh, hb, h1, h2, h3, h4]

/-- **C3 witness**: a power plant (a kind the mesh factory does not
recognize) yields a null mesh without throwing, while the absent name
`"grass"` throws. -/
theorem absent_name_throws_unrecognized_yields_null_witness :
    cloneMesh emptyAssets "grass" false = .error () ∧
    createBuildingMesh emptyAssets
      { x := 0, y := 0, building := some { cRoad with type := "power-plant" } } =
      .ok (none, emptyAssets) :=
  absent_name_throws_unrecognized_yields_null emptyAssets "grass" false
    { x := 0, y := 0, building := some { cRoad with type := "power-plant" } }
    { cRoad with type := "power-plant" }
    rfl rfl (by decide) (by decide) (by decide) (by decide)

/-! ### C8 — the abandoned-zone tint -/

/-- The mesh component of a `cloneMesh`/`create*Mesh` result (default on a
thrown exception). -/
def okMeshD (r : Except Unit (MeshInstance × Assets)) (d : MeshInstance) : MeshInstance :=
  match r with
  | .ok p => p.1
  | .error _ => d

/-- The asset-state component of a `cloneMesh`/`create*Mesh` result (default
on a thrown exception). -/
def okAssetsD (r : Except Unit (MeshInstance × Assets)) (d : Assets) : Assets :=
  match r with
  | .ok p => p.2
  | .error _ => d

/-- A plain white material (clones of templates start out like this). -/
def whiteMat : Material := { color := 0xffffff, emissive := 0, transparent := false }

/-- A placeholder mesh, used only as the default of `okMeshD`. -/
def dMesh : MeshInstance :=
  { name := "", tree := .node 0 .nil, posX := 0, posY := 0, rotationDeg := 0, userData := none }

/-- A two-part template: a root object with one child sub-part, each with its
own material. -/
def twoPartTpl : Template := { tree := .node 0 (.cons (.node 1 .nil) .nil), rotationDeg := 0 }

/-- An abandoned residential zone of style `A`, level 2. -/
def zBuilding : Building :=
  { type := "residential", hideTerrain := true, isMeshOutOfDate := false, style := "A",
    level := 2, rotation := 0, abandoned := true, developed := false, x := 3, y := 4 }

/-- The tile holding `zBuilding`. -/
def zTile : Tile := { x := 3, y := 4, building := some zBuilding }

/-- A catalog holding the two-part `residential-A2` template. -/
def zAssets : Assets :=
  { templates := fun s => if s = "residential-A2" then some twoPartTpl else none,
    heap := fun _ => whiteMat, nextId := 2 }

/-- **C8 counterexample**: on a two-part template, `createZoneMesh` for an
abandoned zone writes the desaturating tint `0x707070` only into
`mesh.material` — the root object's material — while the child sub-part's
material (heap cell 3, a material carried by a sub-part of the instance)
keeps its color `0xffffff`.  So the tint is *not* applied to the color
channel of every sub-part, contradicting the claim as stated. -/
theorem abandoned_tint_misses_child_part :
    zBuilding.abandoned = true ∧
    createZoneMesh zAssets zTile =
      .ok (okMeshD (createZoneMesh zAssets zTile) dMesh,
           okAssetsD (createZoneMesh zAssets zTile) zAssets) ∧
    (okMeshD (createZoneMesh zAssets zTile) dMesh).tree.matIds = [2, 3] ∧
    (okMeshD (createZoneMesh zAssets zTile) dMesh).tree.rootId = 2 ∧
    ((okAssetsD (createZoneMesh zAssets zTile) zAssets).heap 2).color = 0x707070 ∧
    ((okAssetsD (createZoneMesh zAssets zTile) zAssets).heap 3).color = 0xffffff ∧
    (0xffffff : Nat) ≠ 0x707070 :=
  ⟨rfl, rfl, rfl, rfl, rfl, rfl, by decide⟩

/-- **C8 amended**: for an abandoned zone the fixed desaturating tint
`0x707070` is applied to the color channel of the *root* object's
per-instance material only, as an override on the existing cloned material
rather than a material replacement: the instance keeps exactly the material
references the clone produced, the root's material keeps its emissive and
transparency channels, and every other material cell — including those of
child sub-parts — is untouched. -/
theorem abandoned_tint_root_only (A : Assets) (t : Tile) (z : Building)
    (cm : MeshInstance) (A1 : Assets)
    (hb : t.building = some z) (hab : z.abandoned = true)
    (hclone : cloneMesh A (zoneModelName z) false = .ok (cm, A1)) :
    ∃ A2,
      createZoneMesh A t =
        .ok ({ cm with
               userData := some t, rotationDeg := z.rotation,
               posX := z.x, posY := z.y }, A2) ∧
      (A2.heap cm.tree.rootId).color = 0x707070 ∧
      (A2.heap cm.tree.rootId).emissive = (A1.heap cm.tree.rootId).emissive ∧
      (A2.heap cm.tree.rootId).transparent = (A1.heap cm.tree.rootId).transparent ∧
      (∀ j, j ≠ cm.tree.rootId → A2.heap j = A1.heap j) ∧
      A2.templates = A1.templates ∧ A2.nextId = A1.nextId := by
  refine ⟨{ A1 with
      heap := fun j =>
        if j = cm.tree.rootId then { A1.heap cm.tree.rootId with color := 0x707070 }
        else A1.heap j }, ?_, ?_, ?_, ?_, ?_, rfl, rfl⟩
  · simp [createZoneMesh, hb, hclone, hab]
  · simp
  · simp
  · simp
  · intro j hj
    simp [hj]

/-- **C8 witness**: the amended statement evaluated on the two-part
`residential-A2` template and the abandoned zone tile. -/
theorem abandoned_tint_root_only_witness :
    ∃ A2,
      createZoneMesh zAssets zTile =
        .ok ({ okMeshD (cloneMesh zAssets (zoneModelName zBuilding) false) dMesh with
               userData := some zTile, rotationDeg := zBuilding.rotation,
               posX := zBuilding.x, posY := zBuilding.y }, A2) ∧
      (A2.heap (okMeshD (cloneMesh zAssets (zoneModelName zBuilding) false) dMesh).tree.rootId).color
        = 0x707070 ∧
      (A2.heap (okMeshD (cloneMesh zAssets (zoneModelName zBuilding) false) dMesh).tree.rootId).emissive
        = ((okAssetsD (cloneMesh zAssets (zoneModelName zBuilding) false) zAssets).heap
            (okMeshD (cloneMesh zAssets (zoneModelName zBuilding) false) dMesh).tree.rootId).emissive ∧
      (A2.heap (okMeshD (cloneMesh zAssets (zoneModelName zBuilding) false) dMesh).tree.rootId).transparent
        = ((okAssetsD (cloneMesh zAssets (zoneModelName zBuilding) false) zAssets).heap
            (okMeshD (cloneMesh zAssets (zoneModelName zBuilding) false) dMesh).tree.rootId).transparent ∧
      (∀ j, j ≠ (okMeshD (cloneMesh zAssets (zoneModelName zBuilding) false) dMesh).tree.rootId →
        A2.heap j = (okAssetsD (cloneMesh zAssets (zoneModelName zBuilding) false) zAssets).heap j) ∧
      A2.templates = (okAssetsD (cloneMesh zAssets (zoneModelName zBuilding) false) zAssets).templates ∧
      A2.nextId = (okAssetsD (cloneMesh zAssets (zoneModelName zBuilding) false) zAssets).nextId :=
  abandoned_tint_root_only zAssets zTile zBuilding
    (okMeshD (cloneMesh zAssets (zoneModelName zBuilding) false) dMesh)
    (okAssetsD (cloneMesh zAssets (zoneModelName zBuilding) false) zAssets)
    rfl rfl rfl

/-! ### C7 — cloned instances never share materials -/

mutual

/-- Allocation discipline of the material-cloning traversal: the fresh
counter grows, every material reference of the produced tree lies in the
fresh range `[f, f')`, and the heap is written only inside that range. -/
theorem cloneTree_range (tr : Bool) (t : MTree) (f : Nat) (h : Nat → Material) :
    f < (cloneTree tr t f h).2.1 ∧
    (∀ i ∈ (cloneTree tr t f h).1.matIds, f ≤ i ∧ i < (cloneTree tr t f h).2.1) ∧
    (∀ j, (j < f ∨ (cloneTree tr t f h).2.1 ≤ j) → (cloneTree tr t f h).2.2 j = h j) := by
  cases t with
  | node i cs =>
    obtain ⟨IH1, IH2, IH3⟩ := cloneForest_range tr cs (f + 1)
      (fun j => if j = f then cloneMat (h i) tr else h j)
    simp only [cloneTree]
    refine ⟨by omega, ?_, ?_⟩
    · intro i' hi'
      simp only [MTree.matIds, List.mem_cons] at hi'
      rcases hi' with rfl | hmem
      · exact ⟨Nat.le_refl _, by omega⟩
      · have := IH2 i' hmem
        exact ⟨by omega, this.2⟩
    · intro j hj
      rw [IH3 j (by omega)]
      have hne : ¬(j = f) := by omega
      simp [hne]

/-- `cloneTree_range` for a children list. -/
theorem cloneForest_range (tr : Bool) (ts : MForest) (f : Nat) (h : Nat → Material) :
    f ≤ (cloneForest tr ts f h).2.1 ∧
    (∀ i ∈ (cloneForest tr ts f h).1.matIds, f ≤ i ∧ i < (cloneForest tr ts f h).2.1) ∧
    (∀ j, (j < f ∨ (cloneForest tr ts f h).2.1 ≤ j) → (cloneForest tr ts f h).2.2 j = h j) := by
  cases ts with
  | nil =>
    refine ⟨Nat.le_refl _, ?_, ?_⟩
    · intro i hi
      simp [cloneForest, MForest.matIds] at hi
    · intro j hj
      rfl
  | cons t rest =>
    obtain ⟨IHt1, IHt2, IHt3⟩ := cloneTree_range tr t f h
    obtain ⟨IHr1, IHr2, IHr3⟩ := cloneForest_range tr rest
      (cloneTree tr t f h).2.1 (cloneTree tr t f h).2.2
    simp only [cloneForest]
    refine ⟨by omega, ?_, ?_⟩
    · intro i hi
      simp only [MForest.matIds, List.mem_append] at hi
      rcases hi with hmem | hmem
      · have := IHt2 i hmem
        exact ⟨this.1, by omega⟩
      · have := IHr2 i hmem
        exact ⟨by omega, this.2⟩
    · intro j hj
      rw [IHr3 j (by omega), IHt3 j (by omega)]

end

/-- **C7**: two instances minted by `cloneMesh` (from the same or different
templates) share no material reference with each other or with the stored
templates (assuming, as the loader's allocation discipline guarantees, that
template materials live below the allocation counter); consequently writing
any material value — any color, emissive and transparency — into a cell
owned by one instance leaves every material cell of the other instance and
of both templates unchanged. -/
theorem clones_share_no_material (A : Assets) (n1 n2 : String) (tr1 tr2 : Bool)
    (tpl1 tpl2 : Template)
    (ht1 : A.templates n1 = some tpl1) (ht2 : A.templates n2 = some tpl2)
    (hb1 : ∀ i ∈ tpl1.tree.matIds, i < A.nextId)
    (hb2 : ∀ i ∈ tpl2.tree.matIds, i < A.nextId) :
    ∀ m1 ∈ (cloneMesh A n1 tr1).toOption.map Prod.fst,
    ∀ A1 ∈ (cloneMesh A n1 tr1).toOption.map Prod.snd,
    ∀ m2 ∈ (cloneMesh A1 n2 tr2).toOption.map Prod.fst,
    ∀ A2 ∈ (cloneMesh A1 n2 tr2).toOption.map Prod.snd,
    (∀ i ∈ m1.tree.matIds, i ∉ m2.tree.matIds) ∧
    (∀ i ∈ m1.tree.matIds, i ∉ tpl1.tree.matIds ∧ i ∉ tpl2.tree.matIds) ∧
    (∀ i ∈ m2.tree.matIds, i ∉ tpl1.tree.matIds ∧ i ∉ tpl2.tree.matIds) ∧
    (∀ i ∈ m1.tree.matIds, ∀ mat : Material, ∀ j,
      (j ∈ m2.tree.matIds ∨ j ∈ tpl1.tree.matIds ∨ j ∈ tpl2.tree.matIds) →
      (fun k => if k = i then mat else A2.heap k) j = A2.heap j) ∧
    (∀ i ∈ m2.tree.matIds, ∀ mat : Material, ∀ j,
      (j ∈ m1.tree.matIds ∨ j ∈ tpl1.tree.matIds ∨ j ∈ tpl2.tree.matIds) →
      (fun k => if k = i then mat else A2.heap k) j = A2.heap j) := by
  obtain ⟨hr1a, hr1b, hr1c⟩ := cloneTree_range tr1 tpl1.tree A.nextId A.heap
  intro m1 hm1 A1 hA1 m2 hm2 A2 hA2
  simp only [cloneMesh, ht1, Except.toOption, Option.map, Option.mem_def,
    Option.some.injEq] at hm1 hA1
  subst hm1
  subst hA1
  simp only [cloneMesh, ht2, Except.toOption, Option.map, Option.mem_def,
    Option.some.injEq] at hm2 hA2
  subst hm2
  subst hA2
  obtain ⟨hr2a, hr2b, hr2c⟩ := cloneTree_range tr2 tpl2.tree
    (cloneTree tr1 tpl1.tree A.nextId A.heap).2.1 (cloneTree tr1 tpl1.tree A.nextId A.heap).2.2
  dsimp only
  refine ⟨?_, ?_, ?_, ?_, ?_⟩
  · intro i hi hi2
    have h1 := hr1b i hi
    have h2 := hr2b i hi2
    omega
  · intro i hi
    have h1 := hr1b i hi
    exact ⟨fun hmem => by have := hb1 i hmem; omega,
           fun hmem => by have := hb2 i hmem; omega⟩
  · intro i hi
    have h1 := hr2b i hi
    exact ⟨fun hmem => by have := hb1 i hmem; omega,
           fun hmem => by have := hb2 i hmem; omega⟩
  · intro i hi mat j hj
    have h1 := hr1b i hi
    have hne : ¬(j = i) := by
      rcases hj with hj | hj | hj
      · have := hr2b j hj; omega
      · have := hb1 j hj; omega
      · have := hb2 j hj; omega
    simp [hne]
  · intro i hi mat j hj
    have h1 := hr2b i hi
    have hne : ¬(j = i) := by
      rcases hj with hj | hj | hj
      · have := hr1b j hj; omega
      · have := hb1 j hj; omega
      · have := hb2 j hj; omega
    simp [hne]

/-- A one-part template whose material reference is heap cell 1. -/
def onePartTpl : Template := { tree := .node 1 .nil, rotationDeg := 0 }

/-- A catalog with the two-part template under `"a"` and the one-part
template under `"b"`, both below the allocation counter. -/
def c7A : Assets :=
  { templates := fun s => if s = "a" then some twoPartTpl else if s = "b" then some onePartTpl else none,
    heap := fun _ => whiteMat, nextId := 2 }

/-- First clone: `cloneMesh("a", false)` on `c7A`. -/
def c7m1 : MeshInstance := okMeshD (cloneMesh c7A "a" false) dMesh

/-- Asset state after the first clone. -/
def c7A1 : Assets := okAssetsD (cloneMesh c7A "a" false) c7A

/-- Second clone: `cloneMesh("b", true)` on the updated state. -/
def c7m2 : MeshInstance := okMeshD (cloneMesh c7A1 "b" true) dMesh

/-- Asset state after the second clone. -/
def c7A2 : Assets := okAssetsD (cloneMesh c7A1 "b" true) c7A1

/-- **C7 witness**: the no-shared-material statement evaluated on two
concrete clones from a two-entry catalog. -/
theorem clones_share_no_material_witness :
    (∀ i ∈ c7m1.tree.matIds, i ∉ c7m2.tree.matIds) ∧
    (∀ i ∈ c7m1.tree.matIds, i ∉ twoPartTpl.tree.matIds ∧ i ∉ onePartTpl.tree.matIds) ∧
    (∀ i ∈ c7m2.tree.matIds, i ∉ twoPartTpl.tree.matIds ∧ i ∉ onePartTpl.tree.matIds) ∧
    (∀ i ∈ c7m1.tree.matIds, ∀ mat : Material, ∀ j,
      (j ∈ c7m2.tree.matIds ∨ j ∈ twoPartTpl.tree.matIds ∨ j ∈ onePartTpl.tree.matIds) →
      (fun k => if k = i then mat else c7A2.heap k) j = c7A2.heap j) ∧
    (∀ i ∈ c7m2.tree.matIds, ∀ mat : Material, ∀ j,
      (j ∈ c7m1.tree.matIds ∨ j ∈ twoPartTpl.tree.matIds ∨ j ∈ onePartTpl.tree.matIds) →
      (fun k => if k = i then mat else c7A2.heap k) j = c7A2.heap j) :=
  clones_share_no_material c7A "a" "b" false true twoPartTpl onePartTpl rfl rfl
    (by decide) (by decide) c7m1 rfl c7A1 rfl c7m2 rfl c7A2 rfl

/-! ### The `applyChanges` diff pass: branch characterizations -/

/-- `tile?.building`: the building of an optional tile. -/
def tileBuilding (tile : Option Tile) : Option Building :=
  tile.bind Tile.building

/-- A coordinate is *stable* when the loop body has nothing to do there: the
terrain flag already matches the world model, no orphaned mesh sits in the
slot of a building-less tile, and no out-of-date building has a cached mesh. -/
def Stable (s : SceneState) (x y : Nat) : Prop :=
  s.terrainVisible x y = visibleOf (s.city x y) ∧
  (tileBuilding (s.city x y) = none → s.buildings x y = none) ∧
  (∀ b, tileBuilding (s.city x y) = some b → b.isMeshOutOfDate = true → s.buildings x y = none)

/-- Neither mutation branch of the loop body fires at this coordinate. -/
def NoTrigger (s : SceneState) (x y : Nat) : Prop :=
  (tileBuilding (s.city x y) = none ∧ s.buildings x y = none) ∨
  (∃ b, tileBuilding (s.city x y) = some b ∧
    (b.isMeshOutOfDate = false ∨ s.buildings x y = none))

/-- Reading an `upd2` at the written coordinate. -/
theorem upd2_self {α : Type} (f : Nat → Nat → α) (x y : Nat) (v : α) :
    upd2 f x y v x y = v := by
  simp [upd2]

/-- Reading an `upd2` away from the written coordinate. -/
theorem upd2_ne {α : Type} (f : Nat → Nat → α) (x y : Nat) (v : α) (a b : Nat)
    (h : ¬(a = x ∧ b = y)) : upd2 f x y v a b = f a b := by
  simp only [upd2, if_neg h]

/-- Writing the value already present changes nothing. -/
theorem upd2_eq_self {α : Type} (f : Nat → Nat → α) (x y : Nat) (v : α) (h : f x y = v) :
    upd2 f x y v = f := by
  funext a b
  unfold upd2
  split
  · next hab =>
      rw [hab.1, hab.2, h]
  · rfl

/-- `cloneMesh` never touches the template map. -/
theorem cloneMesh_templates (A : Assets) (n : String) (tr : Bool) (m : MeshInstance) (A1 : Assets)
    (h : cloneMesh A n tr = .ok (m, A1)) : A1.templates = A.templates := by
  unfold cloneMesh at h
  cases ht : A.templates n with
  | none => rw [ht] at h; exact absurd h (by simp)
  | some tpl =>
    rw [ht] at h
    have := congrArg (fun r => okAssetsD r A) h
    simp only [okAssetsD] at this
    rw [← this]

/-- `createZoneMesh` never touches the template map. -/
theorem createZoneMesh_templates (A : Assets) (t : Tile) (m : MeshInstance) (A1 : Assets)
    (h : createZoneMesh A t = .ok (m, A1)) : A1.templates = A.templates := by
  cases hb : t.building with
  | none => simp [createZoneMesh, hb] at h
  | some z =>
    cases hcl : cloneMesh A (zoneModelName z) false with
    | error e => simp [createZoneMesh, hb, hcl] at h
    | ok p =>
      obtain ⟨m0, A0⟩ := p
      have htpl : A0.templates = A.templates :=
        cloneMesh_templates A (zoneModelName z) false m0 A0 hcl
      cases hab : z.abandoned with
      | false =>
        simp only [createZoneMesh, hb, hcl, hab, Bool.false_eq_true, if_false,
          Except.ok.injEq, Prod.mk.injEq] at h
        rw [← h.2]
        exact htpl
      | true =>
        simp only [createZoneMesh, hb, hcl, hab, if_true,
          Except.ok.injEq, Prod.mk.injEq] at h
        rw [← h.2]
        exact htpl

/-- `createRoadMesh` never touches the template map. -/
theorem createRoadMesh_templates (A : Assets) (t : Tile) (m : MeshInstance) (A1 : Assets)
    (h : createRoadMesh A t = .ok (m, A1)) : A1.templates = A.templates := by
  cases hb : t.building with
  | none => simp [createRoadMesh, hb] at h
  | some r =>
    cases hcl : cloneMesh A (roadModelName r) false with
    | error e => simp [createRoadMesh, hb, hcl] at h
    | ok p =>
      obtain ⟨m0, A0⟩ := p
      have htpl : A0.templates = A.templates :=
        cloneMesh_templates A (roadModelName r) false m0 A0 hcl
      simp only [createRoadMesh, hb, hcl, Except.ok.injEq, Prod.mk.injEq] at h
      rw [← h.2]
      exact htpl

/-- `createBuildingMesh` never touches the template map. -/
theorem createBuildingMesh_templates (A : Assets) (t : Tile) (om : Option MeshInstance)
    (A1 : Assets) (h : createBuildingMesh A t = .ok (om, A1)) : A1.templates = A.templates := by
  cases hb : t.building with
  | none =>
    simp only [createBuildingMesh, hb, Except.ok.injEq, Prod.mk.injEq] at h
    rw [← h.2]
  | some b =>
    by_cases hz : b.type = "residential" ∨ b.type = "commercial" ∨ b.type = "industrial"
    · cases hzm : createZoneMesh A t with
      | error e => simp [createBuildingMesh, hb, if_pos hz, hzm] at h
      | ok p =>
        obtain ⟨m0, A0⟩ := p
        simp only [createBuildingMesh, hb, if_pos hz, hzm,
          Except.ok.injEq, Prod.mk.injEq] at h
        rw [← h.2]
        exact createZoneMesh_templates A t m0 A0 hzm
    · by_cases hr : b.type = "road"
      · cases hrm : createRoadMesh A t with
        | error e => simp [createBuildingMesh, hb, if_neg hz, if_pos hr, hrm] at h
        | ok p =>
          obtain ⟨m0, A0⟩ := p
          simp only [createBuildingMesh, hb, if_neg hz, if_pos hr, hrm,
            Except.ok.injEq, Prod.mk.injEq] at h
          rw [← h.2]
          exact createRoadMesh_templates A t m0 A0 hrm
      · simp only [createBuildingMesh, hb, if_neg hz, if_neg hr,
          Except.ok.injEq, Prod.mk.injEq] at h
        rw [← h.2]

/-- If `tileBuilding` is `some b`, the tile itself is present and holds `b`. -/
theorem tileBuilding_some (tile : Option Tile) (b : Building)
    (h : tileBuilding tile = some b) : ∃ t, tile = some t ∧ t.building = some b := by
  cases tile with
  | none => simp [tileBuilding] at h
  | some t => exact ⟨t, rfl, by simpa [tileBuilding] using h⟩

/-- Removal branch: a building-less tile with a cached mesh gets its slot
cleared, the mesh removed, and a `updateTile(x, y, null)` notification. -/
theorem applyTile_remove (s : SceneState) (x y : Nat) (m : MeshInstance)
    (htb : tileBuilding (s.city x y) = none) (hm : s.buildings x y = some m) :
    applyTile s x y = .ok
      ({ s with
         terrainVisible := upd2 s.terrainVisible x y (visibleOf (s.city x y)),
         buildings := upd2 s.buildings x y none },
       [.removeMesh x y m, .vgUpdateTile x y none]) := by
  cases hc : s.city x y with
  | none => simp only [applyTile, hc, hm]
  | some t =>
    have htb1 : t.building = none := by simpa [tileBuilding, hc] using htb
    simp only [applyTile, hc, htb1, hm]

/-- Skip branch: when neither loop guard fires, only the terrain-visibility
flag is (re)written and no event is issued. -/
theorem applyTile_skip (s : SceneState) (x y : Nat) (hnt : NoTrigger s x y) :
    applyTile s x y = .ok
      ({ s with terrainVisible := upd2 s.terrainVisible x y (visibleOf (s.city x y)) }, []) := by
  rcases hnt with ⟨htb, hm⟩ | ⟨b, htb, hrest⟩
  · cases hc : s.city x y with
    | none => simp only [applyTile, hc, hm]
    | some t =>
      have htb1 : t.building = none := by simpa [tileBuilding, hc] using htb
      simp only [applyTile, hc, htb1, hm]
  · obtain ⟨t, hc, hb⟩ := tileBuilding_some (s.city x y) b htb
    rcases hrest with hflag | hm
    · simp only [applyTile, hc, hb, hflag, Bool.false_eq_true, if_false]
    · cases hflag : b.isMeshOutOfDate with
      | false => simp only [applyTile, hc, hb, hflag, Bool.false_eq_true, if_false]
      | true => simp only [applyTile, hc, hb, hflag, if_true, hm]

/-- Stale-rebuild branch, successful factory call. -/
theorem applyTile_stale (s : SceneState) (x y : Nat) (t : Tile) (b : Building)
    (m : MeshInstance) (om : Option MeshInstance) (A1 : Assets)
    (hc : s.city x y = some t) (hb : t.building = some b)
    (hflag : b.isMeshOutOfDate = true) (hm : s.buildings x y = some m)
    (hcbm : createBuildingMesh s.assets t = .ok (om, A1)) :
    applyTile s x y = .ok
      ({ s with
         assets := A1,
         city := upd2 s.city x y (some { t with building := some { b with isMeshOutOfDate := false } }),
         buildings := upd2 s.buildings x y om,
         terrainVisible := upd2 s.terrainVisible x y (visibleOf (s.city x y)) },
       [SceneEvent.removeMesh x y m]
         ++ (match om with
             | some nm => [SceneEvent.addMesh x y nm]
             | none => [])
         ++ (if b.type = "road" then
               [SceneEvent.vgUpdateTile x y (some { b with isMeshOutOfDate := false })]
             else [])) := by
  simp only [applyTile, hc, hb, hflag, if_true, hm, applyStale, hcbm]
  cases om <;> rfl

/-- Stale-rebuild branch, factory call that throws: the exception propagates
out of the loop body. -/
theorem applyTile_stale_error (s : SceneState) (x y : Nat) (t : Tile) (b : Building)
    (m : MeshInstance) (e : Unit)
    (hc : s.city x y = some t) (hb : t.building = some b)
    (hflag : b.isMeshOutOfDate = true) (hm : s.buildings x y = some m)
    (hcbm : createBuildingMesh s.assets t = .error e) :
    applyTile s x y = .error e := by
  simp only [applyTile, hc, hb, hflag, if_true, hm, applyStale, hcbm]

/-- A stable coordinate makes the loop body a perfect no-op: same state,
no events. -/
theorem applyTile_stable_noop (s : SceneState) (x y : Nat) (hst : Stable s x y) :
    applyTile s x y = .ok (s, []) := by
  obtain ⟨ht, h2, h3⟩ := hst
  have hterr : upd2 s.terrainVisible x y (visibleOf (s.city x y)) = s.terrainVisible :=
    upd2_eq_self _ _ _ _ ht
  cases htb : tileBuilding (s.city x y) with
  | none =>
    rw [applyTile_skip s x y (Or.inl ⟨htb, h2 htb⟩), hterr]
  | some b =>
    cases hflag : b.isMeshOutOfDate with
    | false => rw [applyTile_skip s x y (Or.inr ⟨b, htb, Or.inl hflag⟩), hterr]
    | true => rw [applyTile_skip s x y (Or.inr ⟨b, htb, Or.inr (h3 b htb hflag)⟩), hterr]

/-- Everything one loop-body step guarantees: the grid size and the template
map survive, every *other* coordinate's world/slot/terrain cells are left
alone, every event is tagged with this coordinate, and afterwards this
coordinate is stable. -/
theorem applyTile_ok_inv (s : SceneState) (x y : Nat) (s1 : SceneState) (ev : List SceneEvent)
    (h : applyTile s x y = .ok (s1, ev)) :
    s1.citySize = s.citySize ∧
    s1.assets.templates = s.assets.templates ∧
    (∀ a b, ¬(a = x ∧ b = y) →
      s1.city a b = s.city a b ∧ s1.buildings a b = s.buildings a b ∧
      s1.terrainVisible a b = s.terrainVisible a b) ∧
    (∀ e ∈ ev, e.xy = (x, y)) ∧
    Stable s1 x y := by
  cases htb : tileBuilding (s.city x y) with
  | none =>
    cases hm : s.buildings x y with
    | some m =>
      rw [applyTile_remove s x y m htb hm] at h
      injection h with h'
      injection h' with hs hev
      subst hs
      subst hev
      refine ⟨rfl, rfl, ?_, ?_, ?_, ?_, ?_⟩
      · intro a b hab
        exact ⟨rfl, upd2_ne _ _ _ _ _ _ hab, upd2_ne _ _ _ _ _ _ hab⟩
      · intro e he
        rcases List.mem_cons.mp he with rfl | he2
        · rfl
        · rcases List.mem_singleton.mp he2 with rfl
          rfl
      · exact upd2_self _ _ _ _
      · intro _
        exact upd2_self _ _ _ _
      · intro b _ _
        exact upd2_self _ _ _ _
    | none =>
      rw [applyTile_skip s x y (Or.inl ⟨htb, hm⟩)] at h
      injection h with h'
      injection h' with hs hev
      subst hs
      subst hev
      refine ⟨rfl, rfl, ?_, ?_, ?_, ?_, ?_⟩
      · intro a b hab
        exact ⟨rfl, rfl, upd2_ne _ _ _ _ _ _ hab⟩
      · intro e he
        simp at he
      · exact upd2_self _ _ _ _
      · intro _
        exact hm
      · intro b hb _
        rw [show tileBuilding (s.city x y) = some b from hb] at htb
        cases htb
  | some b =>
    obtain ⟨t, hc, hbt⟩ := tileBuilding_some _ b htb
    cases hflag : b.isMeshOutOfDate with
    | false =>
      rw [applyTile_skip s x y (Or.inr ⟨b, htb, Or.inl hflag⟩)] at h
      injection h with h'
      injection h' with hs hev
      subst hs
      subst hev
      refine ⟨rfl, rfl, ?_, ?_, ?_, ?_, ?_⟩
      · intro a b hab
        exact ⟨rfl, rfl, upd2_ne _ _ _ _ _ _ hab⟩
      · intro e he
        simp at he
      · exact upd2_self _ _ _ _
      · intro hnone
        rw [hnone] at htb
        cases htb
      · intro b' hb' hfl
        have hbb : b' = b := by
          rw [htb] at hb'
          exact (Option.some.inj hb').symm
        rw [hbb, hflag] at hfl
        cases hfl
    | true =>
      cases hm : s.buildings x y with
      | none =>
        rw [applyTile_skip s x y (Or.inr ⟨b, htb, Or.inr hm⟩)] at h
        injection h with h'
        injection h' with hs hev
        subst hs
        subst hev
        refine ⟨rfl, rfl, ?_, ?_, ?_, ?_, ?_⟩
        · intro a b hab
          exact ⟨rfl, rfl, upd2_ne _ _ _ _ _ _ hab⟩
        · intro e he
          simp at he
        · exact upd2_self _ _ _ _
        · intro _
          exact hm
        · intro b' _ _
          exact hm
      | some m =>
        cases hcbm : createBuildingMesh s.assets t with
        | error e0 =>
          rw [applyTile_stale_error s x y t b m e0 hc hbt hflag hm hcbm] at h
          exact absurd h (by simp)
        | ok p =>
          obtain ⟨om, A1⟩ := p
          rw [applyTile_stale s x y t b m om A1 hc hbt hflag hm hcbm] at h
          injection h with h'
          injection h' with hs hev
          subst hs
          subst hev
          have hSc : upd2 s.city x y
              (some { t with building := some { b with isMeshOutOfDate := false } }) x y =
              some { t with building := some { b with isMeshOutOfDate := false } } :=
            upd2_self _ _ _ _
          refine ⟨rfl, createBuildingMesh_templates _ _ _ _ hcbm, ?_, ?_, ?_, ?_, ?_⟩
          · intro a b hab
            exact ⟨upd2_ne _ _ _ _ _ _ hab, upd2_ne _ _ _ _ _ _ hab, upd2_ne _ _ _ _ _ _ hab⟩
          · intro e he
            rcases List.mem_append.mp he with he1 | he2
            · rcases List.mem_append.mp he1 with he3 | he4
              · rcases List.mem_singleton.mp he3 with rfl
                rfl
              · cases om with
                | none => simp at he4
                | some nm =>
                  rcases List.mem_singleton.mp he4 with rfl
                  rfl
            · by_cases hroad : b.type = "road"
              · rw [if_pos hroad] at he2
                rcases List.mem_singleton.mp he2 with rfl
                rfl
              · rw [if_neg hroad] at he2
                simp at he2
          · dsimp only
            rw [upd2_self, upd2_self, hc]
            simp [visibleOf, hbt]
          · intro hnone
            dsimp only at hnone
            rw [hSc] at hnone
            simp [tileBuilding] at hnone
          · intro b' hb' hfl
            dsimp only at hb'
            rw [hSc] at hb'
            have hbb : b' = { b with isMeshOutOfDate := false } := by
              simpa [tileBuilding] using hb'.symm
            rw [hbb] at hfl
            simp at hfl

/-- Stability only depends on the coordinate's own world/slot/terrain cells. -/
theorem stable_of_components (s s1 : SceneState) (a b : Nat)
    (hc : s1.city a b = s.city a b) (hb : s1.buildings a b = s.buildings a b)
    (ht : s1.terrainVisible a b = s.terrainVisible a b) (hst : Stable s a b) :
    Stable s1 a b := by
  obtain ⟨h1, h2, h3⟩ := hst
  refine ⟨by rw [ht, hc, h1], ?_, ?_⟩
  · rw [hc, hb]
    exact h2
  · rw [hc, hb]
    exact h3

/-- Composing two runs of the loop over concatenated coordinate lists. -/
theorem applyTiles_append_ok (L1 L2 : List (Nat × Nat)) (s s1 s2 : SceneState)
    (ev1 ev2 : List SceneEvent)
    (h1 : applyTiles s L1 = .ok (s1, ev1)) (h2 : applyTiles s1 L2 = .ok (s2, ev2)) :
    applyTiles s (L1 ++ L2) = .ok (s2, ev1 ++ ev2) := by
  induction L1 generalizing s ev1 with
  | nil =>
    simp only [applyTiles] at h1
    injection h1 with h'
    injection h' with hs hev
    subst hs
    subst hev
    simpa using h2
  | cons c rest ih =>
    rw [List.cons_append]
    simp only [applyTiles] at h1 ⊢
    cases hA : applyTile s c.1 c.2 with
    | error e =>
      simp only [hA] at h1
      cases h1
    | ok p =>
      obtain ⟨sm, evA⟩ := p
      simp only [hA] at h1 ⊢
      cases hB : applyTiles sm rest with
      | error e =>
        simp only [hB] at h1
        cases h1
      | ok q =>
        obtain ⟨sq, evB⟩ := q
        simp only [hB, Except.ok.injEq, Prod.mk.injEq] at h1
        obtain ⟨hs, hev⟩ := h1
        subst hs
        subst hev
        simp only [ih sm evB hB]
        simp [List.append_assoc]

/-- Decomposing a successful run over a concatenation. -/
theorem applyTiles_ok_split (L1 L2 : List (Nat × Nat)) (s s2 : SceneState)
    (ev : List SceneEvent) (h : applyTiles s (L1 ++ L2) = .ok (s2, ev)) :
    ∃ s1 ev1 ev2, applyTiles s L1 = .ok (s1, ev1) ∧ applyTiles s1 L2 = .ok (s2, ev2) ∧
      ev = ev1 ++ ev2 := by
  induction L1 generalizing s ev with
  | nil =>
    exact ⟨s, [], ev, rfl, by simpa using h, by simp⟩
  | cons c rest ih =>
    rw [List.cons_append] at h
    simp only [applyTiles] at h
    cases hA : applyTile s c.1 c.2 with
    | error e =>
      simp only [hA] at h
      cases h
    | ok p =>
      obtain ⟨sm, evA⟩ := p
      simp only [hA] at h
      cases hB : applyTiles sm (rest ++ L2) with
      | error e =>
        simp only [hB] at h
        cases h
      | ok q =>
        obtain ⟨sq, evB⟩ := q
        simp only [hB, Except.ok.injEq, Prod.mk.injEq] at h
        obtain ⟨hs, hev⟩ := h
        subst hs
        subst hev
        obtain ⟨s1, ev1, ev2, hx1, hx2, hx3⟩ := ih sm evB hB
        refine ⟨s1, evA ++ ev1, ev2, ?_, hx2, by rw [hx3, List.append_assoc]⟩
        simp only [applyTiles, hA, hx1]

/-- The loop-level invariant: grid size and template map survive, coordinates
outside the list keep their world/slot/terrain cells, every event is tagged
with a coordinate of the list, and a coordinate that was stable — or that the
loop visits — is stable afterwards. -/
theorem applyTiles_ok_inv (L : List (Nat × Nat)) (s s1 : SceneState) (ev : List SceneEvent)
    (h : applyTiles s L = .ok (s1, ev)) :
    s1.citySize = s.citySize ∧
    s1.assets.templates = s.assets.templates ∧
    (∀ a b, (a, b) ∉ L →
      s1.city a b = s.city a b ∧ s1.buildings a b = s.buildings a b ∧
      s1.terrainVisible a b = s.terrainVisible a b) ∧
    (∀ e ∈ ev, e.xy ∈ L) ∧
    (∀ a b, (Stable s a b ∨ (a, b) ∈ L) → Stable s1 a b) := by
  induction L generalizing s s1 ev with
  | nil =>
    simp only [applyTiles] at h
    injection h with h'
    injection h' with hs hev
    subst hs
    subst hev
    refine ⟨rfl, rfl, fun a b _ => ⟨rfl, rfl, rfl⟩, by simp, ?_⟩
    intro a b hab
    rcases hab with hst | hmem
    · exact hst
    · simp at hmem
  | cons c rest ih =>
    obtain ⟨cx, cy⟩ := c
    simp only [applyTiles] at h
    cases hA : applyTile s cx cy with
    | error e =>
      simp only [hA] at h
      cases h
    | ok p =>
      obtain ⟨sm, evA⟩ := p
      simp only [hA] at h
      cases hB : applyTiles sm rest with
      | error e =>
        simp only [hB] at h
        cases h
      | ok q =>
        obtain ⟨sq, evB⟩ := q
        simp only [hB, Except.ok.injEq, Prod.mk.injEq] at h
        obtain ⟨hs, hev⟩ := h
        subst hs
        subst hev
        obtain ⟨hA1, hA2, hA3, hA4, hA5⟩ := applyTile_ok_inv s cx cy sm evA hA
        obtain ⟨hB1, hB2, hB3, hB4, hB5⟩ := ih sm sq evB hB
        refine ⟨hB1.trans hA1, hB2.trans hA2, ?_, ?_, ?_⟩
        · intro a b hab
          have hne : ¬(a = cx ∧ b = cy) := by
            intro hq
            exact hab (by rw [hq.1, hq.2]; exact List.mem_cons_self _ _)
          have hmr : (a, b) ∉ rest := fun hmem => hab (List.mem_cons_of_mem _ hmem)
          have h1 := hA3 a b hne
          have h2 := hB3 a b hmr
          exact ⟨h2.1.trans h1.1, h2.2.1.trans h1.2.1, h2.2.2.trans h1.2.2⟩
        · intro e he
          rcases List.mem_append.mp he with he1 | he2
          · rw [hA4 e he1]
            exact List.mem_cons_self _ _
          · exact List.mem_cons_of_mem _ (hB4 e he2)
        · intro a b hab
          rcases hab with hst | hmem
          · by_cases hcc : a = cx ∧ b = cy
            · obtain ⟨rfl, rfl⟩ := hcc
              exact hB5 a b (Or.inl hA5)
            · have h1 := hA3 a b hcc
              exact hB5 a b (Or.inl (stable_of_components s sm a b h1.1 h1.2.1 h1.2.2 hst))
          · rcases List.mem_cons.mp hmem with heq | hmem2
            · injection heq with h1 h2
              subst h1
              subst h2
              exact hB5 _ _ (Or.inl hA5)
            · exact hB5 a b (Or.inr hmem2)

/-- A loop over only-stable coordinates is a perfect no-op. -/
theorem applyTiles_stable_noop (L : List (Nat × Nat)) (s : SceneState)
    (h : ∀ c ∈ L, Stable s c.1 c.2) : applyTiles s L = .ok (s, []) := by
  induction L with
  | nil => rfl
  | cons c rest ih =>
    simp only [applyTiles, applyTile_stable_noop s c.1 c.2 (h c (List.mem_cons_self _ _)),
      ih (fun d hd => h d (List.mem_cons_of_mem _ hd)), List.nil_append]

/-- Grid membership of the iteration order. -/
theorem mem_coordList (n x y : Nat) : (x, y) ∈ coordList n ↔ x < n ∧ y < n := by
  unfold coordList
  rw [List.mem_flatMap]
  constructor
  · rintro ⟨a, ha, hmem⟩
    obtain ⟨b, hb, heq⟩ := List.mem_map.mp hmem
    injection heq with h1 h2
    subst h1
    subst h2
    exact ⟨List.mem_range.mp ha, List.mem_range.mp hb⟩
  · rintro ⟨hx, hy⟩
    exact ⟨x, List.mem_range.mpr hx, List.mem_map.mpr ⟨y, List.mem_range.mpr hy, rfl⟩⟩

/-- The double loop visits each coordinate exactly once. -/
theorem coordList_nodup (n : Nat) : (coordList n).Nodup := by
  unfold coordList
  rw [List.nodup_flatMap]
  constructor
  · intro a _
    exact (List.nodup_range n).map (fun y1 y2 h => by injection h)
  · have := List.nodup_range n
    refine List.Pairwise.imp ?_ (List.nodup_range n)
    intro a1 a2 hne p hp1 hp2
    obtain ⟨y1, _, rfl⟩ := List.mem_map.mp hp1
    obtain ⟨y2, _, h⟩ := List.mem_map.mp hp2
    injection h with h1 h2
    exact hne h1.symm

/-- The events of a pass that the loop issued at coordinate `(x, y)`. -/
def eventsAt (x y : Nat) (evs : List SceneEvent) : List SceneEvent :=
  evs.filter (fun e => decide (e.xy = (x, y)))

/-- `eventsAt` distributes over concatenated logs. -/
theorem eventsAt_append (x y : Nat) (l1 l2 : List SceneEvent) :
    eventsAt x y (l1 ++ l2) = eventsAt x y l1 ++ eventsAt x y l2 :=
  List.filter_append l1 l2

/-- Events all tagged elsewhere are filtered away. -/
theorem eventsAt_nil_of_ne (x y : Nat) (evs : List SceneEvent)
    (h : ∀ e ∈ evs, e.xy ≠ (x, y)) : eventsAt x y evs = [] := by
  unfold eventsAt
  rw [List.filter_eq_nil_iff]
  intro e he
  simp only [decide_eq_true_eq]
  exact h e he

/-- A present template makes `cloneMesh` succeed. -/
theorem cloneMesh_ok (A : Assets) (n : String) (tr : Bool) (tpl : Template)
    (h : A.templates n = some tpl) :
    ∃ p, cloneMesh A n tr = .ok p := by
  simp only [cloneMesh, h]
  exact ⟨_, rfl⟩

/-- A present zone template makes `createZoneMesh` succeed. -/
theorem createZoneMesh_isOk (A : Assets) (t : Tile) (z : Building)
    (hb : t.building = some z) (htpl : ∃ tpl, A.templates (zoneModelName z) = some tpl) :
    ∃ p, createZoneMesh A t = .ok p := by
  obtain ⟨tpl, htpl⟩ := htpl
  simp only [createZoneMesh, hb, cloneMesh, htpl]
  split_ifs <;> exact ⟨_, rfl⟩

/-- A present road template makes `createRoadMesh` succeed. -/
theorem createRoadMesh_isOk (A : Assets) (t : Tile) (r : Building)
    (hb : t.building = some r) (htpl : ∃ tpl, A.templates (roadModelName r) = some tpl) :
    ∃ p, createRoadMesh A t = .ok p := by
  obtain ⟨tpl, htpl⟩ := htpl
  simp only [createRoadMesh, hb, cloneMesh, htpl]
  exact ⟨_, rfl⟩

/-- A recognized building kind whose template is present produces a non-null
mesh from the factory. -/
theorem createBuildingMesh_recognized (A : Assets) (t : Tile) (b : Building)
    (hb : t.building = some b)
    (hrec : ((b.type = "residential" ∨ b.type = "commercial" ∨ b.type = "industrial") ∧
        (∃ tpl, A.templates (zoneModelName b) = some tpl)) ∨
      (b.type = "road" ∧ ∃ tpl, A.templates (roadModelName b) = some tpl)) :
    ∃ nm A1, createBuildingMesh A t = .ok (some nm, A1) := by
  rcases hrec with ⟨hz, htpl⟩ | ⟨hr, htpl⟩
  · obtain ⟨⟨m0, A0⟩, hok⟩ := createZoneMesh_isOk A t b hb htpl
    exact ⟨m0, A0, by simp [createBuildingMesh, hb, if_pos hz, hok]⟩
  · have hz : ¬(b.type = "residential" ∨ b.type = "commercial" ∨ b.type = "industrial") := by
      simp [hr]
    obtain ⟨⟨m0, A0⟩, hok⟩ := createRoadMesh_isOk A t b hb htpl
    exact ⟨m0, A0, by simp [createBuildingMesh, hb, if_neg hz, if_pos hr, hok]⟩

/-! ### C9 — stale flag without a cached mesh -/

/-- Core induction for C9: a tile whose building is flagged out of date but
whose slot is empty is never touched by the loop — its world cell and empty
slot survive, and no event is tagged with it. -/
theorem applyTiles_stale_no_slot (L : List (Nat × Nat)) (x y : Nat) (t : Tile) (b : Building)
    (hb : t.building = some b) :
    ∀ s s1 ev, s.city x y = some t → s.buildings x y = none →
      applyTiles s L = .ok (s1, ev) →
      s1.city x y = some t ∧ s1.buildings x y = none ∧ ∀ e ∈ ev, e.xy ≠ (x, y) := by
  induction L with
  | nil =>
    intro s s1 ev hc hm h
    simp only [applyTiles, Except.ok.injEq, Prod.mk.injEq] at h
    obtain ⟨hs, hev⟩ := h
    subst hs
    subst hev
    exact ⟨hc, hm, by simp⟩
  | cons c rest ih =>
    intro s s1 ev hc hm h
    obtain ⟨cx, cy⟩ := c
    simp only [applyTiles] at h
    cases hA : applyTile s cx cy with
    | error e =>
      simp only [hA] at h
      cases h
    | ok p =>
      obtain ⟨sm, evA⟩ := p
      simp only [hA] at h
      cases hB : applyTiles sm rest with
      | error e =>
        simp only [hB] at h
        cases h
      | ok q =>
        obtain ⟨sq, evB⟩ := q
        simp only [hB, Except.ok.injEq, Prod.mk.injEq] at h
        obtain ⟨hs, hev⟩ := h
        subst hs
        subst hev
        by_cases hcc : cx = x ∧ cy = y
        · obtain ⟨rfl, rfl⟩ := hcc
          have hnt : NoTrigger s cx cy :=
            Or.inr ⟨b, by simp [tileBuilding, hc, hb], Or.inr hm⟩
          rw [applyTile_skip s cx cy hnt] at hA
          injection hA with hA'
          injection hA' with hsm hevA
          subst hsm
          subst hevA
          obtain ⟨r1, r2, r3⟩ := ih
            { s with terrainVisible := upd2 s.terrainVisible cx cy (visibleOf (s.city cx cy)) }
            sq evB hc hm hB
          exact ⟨r1, r2, by simpa using r3⟩
        · obtain ⟨f1, f2, f3, f4, f5⟩ := applyTile_ok_inv s cx cy sm evA hA
          have hfr := f3 x y (by intro hq; exact hcc ⟨hq.1.symm, hq.2.symm⟩)
          obtain ⟨r1, r2, r3⟩ := ih _ _ _ (hfr.1.trans hc) (hfr.2.1.trans hm) hB
          refine ⟨r1, r2, ?_⟩
          intro e he
          rcases List.mem_append.mp he with he1 | he2
          · rw [f4 e he1]
            intro hq
            injection hq with hq1 hq2
            exact hcc ⟨hq1, hq2⟩
          · exact r3 e he2

/-- **C9**: a tile whose building is flagged mesh-out-of-date but whose slot
holds no cached mesh is untouched by `applyChanges`: no mesh is created, no
scene-graph mutation or vehicle-graph notification is issued for that tile,
the slot stays empty, and the building's out-of-date flag remains set. -/
theorem stale_without_cached_mesh_untouched (s s1 : SceneState) (ev : List SceneEvent)
    (x y : Nat) (t : Tile) (b : Building)
    (hc : s.city x y = some t) (hb : t.building = some b)
    (hflag : b.isMeshOutOfDate = true) (hm : s.buildings x y = none)
    (hok : applyChanges s = .ok (s1, ev)) :
    s1.city x y = some t ∧
    tileBuilding (s1.city x y) = some b ∧ b.isMeshOutOfDate = true ∧
    s1.buildings x y = none ∧
    (∀ e ∈ ev, e.xy ≠ (x, y)) := by
  obtain ⟨r1, r2, r3⟩ :=
    applyTiles_stale_no_slot (coordList s.citySize) x y t b hb s s1 ev hc hm hok
  exact ⟨r1, by simp [tileBuilding, r1, hb], hflag, r2, r3⟩

/-- A 1×1 world with a stale road and an *empty* slot (and an empty catalog —
irrelevant, since the rebuild branch never fires). -/
def c9State : SceneState :=
  { assets := emptyAssets, citySize := 1,
    city := fun a b => if a = 0 ∧ b = 0 then some { x := 0, y := 0, building := some cRoad } else none,
    buildings := fun _ _ => none,
    terrainVisible := fun _ _ => true }

/-- **C9 witness**: the statement evaluated on the 1×1 stale-road world. -/
theorem stale_without_cached_mesh_untouched_witness :
    (okStateD (applyChanges c9State) c9State).city 0 0 =
      some { x := 0, y := 0, building := some cRoad } ∧
    tileBuilding ((okStateD (applyChanges c9State) c9State).city 0 0) = some cRoad ∧
    cRoad.isMeshOutOfDate = true ∧
    (okStateD (applyChanges c9State) c9State).buildings 0 0 = none ∧
    (∀ e ∈ okEventsD (applyChanges c9State), e.xy ≠ (0, 0)) :=
  stale_without_cached_mesh_untouched c9State
    (okStateD (applyChanges c9State) c9State) (okEventsD (applyChanges c9State))
    0 0 { x := 0, y := 0, building := some cRoad } cRoad rfl rfl rfl rfl rfl

/-! ### C5 — `applyChanges` is idempotent -/

/-- **C5**: immediately after one `applyChanges` pass, a second pass over the
resulting (world, scene) state performs zero scene-graph mutations — no mesh
is removed or added, no slot or world cell changes (the final state is
exactly the input state), no terrain flag changes value, and no vehicle-graph
notification is issued (the event log is empty). -/
theorem applyChanges_idempotent (s s1 : SceneState) (ev : List SceneEvent)
    (h : applyChanges s = .ok (s1, ev)) : applyChanges s1 = .ok (s1, []) := by
  unfold applyChanges at h ⊢
  obtain ⟨h1, h2, h3, h4, h5⟩ := applyTiles_ok_inv _ _ _ _ h
  rw [h1]
  apply applyTiles_stable_noop
  intro c hcmem
  exact h5 c.1 c.2 (Or.inr hcmem)

/-- The catalog holding the two-part template under the road model name. -/
def wAssets : Assets :=
  { templates := fun s => if s = "road-straight" then some twoPartTpl else none,
    heap := fun _ => whiteMat, nextId := 2 }

/-- A 1×1 world with a stale road *and* a cached mesh: the first pass does a
remove/add/notify, after which the state is settled. -/
def wState : SceneState :=
  { assets := wAssets, citySize := 1,
    city := fun a b => if a = 0 ∧ b = 0 then some { x := 0, y := 0, building := some cRoad } else none,
    buildings := fun a b => if a = 0 ∧ b = 0 then some dMesh else none,
    terrainVisible := fun _ _ => true }

/-- **C5 witness**: the second pass on the 1×1 stale-road world is an exact
no-op. -/
theorem applyChanges_idempotent_witness :
    applyChanges (okStateD (applyChanges wState) wState) =
      .ok (okStateD (applyChanges wState) wState, []) :=
  applyChanges_idempotent wState (okStateD (applyChanges wState) wState)
    (okEventsD (applyChanges wState)) rfl

/-! ### C6 — diff minimality for a single-tile change -/

/-- The single-tile change "the building was removed while a mesh is still
cached". -/
def ChangedRemoval (s : SceneState) (x y : Nat) : Prop :=
  tileBuilding (s.city x y) = none ∧ ∃ m, s.buildings x y = some m

/-- The single-tile change "an existing building was flagged out of date
while its mesh is cached" (with a recognized kind whose template is loaded,
so the rebuild can produce a mesh). -/
def ChangedStale (s : SceneState) (x y : Nat) : Prop :=
  ∃ t b m, s.city x y = some t ∧ t.building = some b ∧ b.isMeshOutOfDate = true ∧
    s.buildings x y = some m ∧
    (((b.type = "residential" ∨ b.type = "commercial" ∨ b.type = "industrial") ∧
        (∃ tpl, s.assets.templates (zoneModelName b) = some tpl)) ∨
      (b.type = "road" ∧ ∃ tpl, s.assets.templates (roadModelName b) = some tpl))

/-- **C6**: when the world model changed at exactly one coordinate (every
other grid coordinate is stable) — a removal or a stale flag — a single
`applyChanges` pass performs exactly one scene-graph remove, all its events
are tagged with that coordinate (so no other tile sees a remove, add, or
vehicle-graph notification), a removal performs no add while a stale rebuild
performs exactly one, and every other coordinate's world cell, slot and
terrain flag are untouched. -/
theorem applyChanges_minimal_diff (s : SceneState) (x y : Nat)
    (hx : x < s.citySize) (hy : y < s.citySize)
    (hstable : ∀ a b, a < s.citySize → b < s.citySize → ¬(a = x ∧ b = y) → Stable s a b)
    (hchange : ChangedRemoval s x y ∨ ChangedStale s x y) :
    ∃ s1 ev, applyChanges s = .ok (s1, ev) ∧
      (ev.filter SceneEvent.isRemove).length = 1 ∧
      (∀ e ∈ ev, e.xy = (x, y)) ∧
      (ChangedRemoval s x y → ev.filter SceneEvent.isAdd = []) ∧
      (ChangedStale s x y → (ev.filter SceneEvent.isAdd).length = 1) ∧
      (∀ a b, ¬(a = x ∧ b = y) →
        s1.city a b = s.city a b ∧ s1.buildings a b = s.buildings a b ∧
        s1.terrainVisible a b = s.terrainVisible a b) := by
  have hmem : (x, y) ∈ coordList s.citySize := (mem_coordList _ x y).mpr ⟨hx, hy⟩
  obtain ⟨L1, L2, hL⟩ := List.append_of_mem hmem
  have hnd := coordList_nodup s.citySize
  rw [hL] at hnd
  obtain ⟨hnd1, hnd2, hdisj⟩ := List.nodup_append.mp hnd
  have hnotin1 : (x, y) ∉ L1 := fun hm1 => hdisj hm1 (List.mem_cons_self _ _)
  have hnotin2 : (x, y) ∉ L2 := (List.nodup_cons.mp hnd2).1
  have hstL : ∀ c : Nat × Nat, c ∈ L1 ∨ c ∈ L2 → Stable s c.1 c.2 := by
    intro c hmem2
    have hcmem : c ∈ coordList s.citySize := by
      rw [hL]
      rcases hmem2 with hm1 | hm2
      · exact List.mem_append_left _ hm1
      · exact List.mem_append_right _ (List.mem_cons_of_mem _ hm2)
    have hbounds := (mem_coordList s.citySize c.1 c.2).mp hcmem
    have hne : ¬(c.1 = x ∧ c.2 = y) := by
      intro hq
      have : c = (x, y) := by
        rw [← hq.1, ← hq.2]
      rcases hmem2 with hm1 | hm2
      · exact hnotin1 (this ▸ hm1)
      · exact hnotin2 (this ▸ hm2)
    exact hstable c.1 c.2 hbounds.1 hbounds.2 hne
  have hrun1 : applyTiles s L1 = .ok (s, []) :=
    applyTiles_stable_noop L1 s (fun c hc => hstL c (Or.inl hc))
  have hexcl : ChangedRemoval s x y → ChangedStale s x y → False := by
    intro hrm hcs
    obtain ⟨hrm1, _⟩ := hrm
    obtain ⟨t, b, m', hc, hbb, _, _, _⟩ := hcs
    rw [show tileBuilding (s.city x y) = some b from by simp [tileBuilding, hc, hbb]] at hrm1
    cases hrm1
  -- one loop-body step at the changed coordinate, then finish the pass
  have main : ∀ S1 evA, applyTile s x y = .ok (S1, evA) →
      ∃ s1 ev, applyChanges s = .ok (s1, ev) ∧ s1 = S1 ∧ ev = evA := by
    intro S1 evA hA
    obtain ⟨g1, g2, g3, g4, g5⟩ := applyTile_ok_inv s x y S1 evA hA
    have hrun2 : applyTiles S1 L2 = .ok (S1, []) := by
      apply applyTiles_stable_noop
      intro c hc
      have hne : ¬(c.1 = x ∧ c.2 = y) := by
        intro hq
        exact hnotin2 (show (x, y) ∈ L2 from by rw [← hq.1, ← hq.2]; exact hc)
      have hfr := g3 c.1 c.2 hne
      exact stable_of_components s S1 c.1 c.2 hfr.1 hfr.2.1 hfr.2.2 (hstL c (Or.inr hc))
    have hcons : applyTiles s ((x, y) :: L2) = .ok (S1, evA ++ []) := by
      simp only [applyTiles, hA, hrun2]
    have htot := applyTiles_append_ok L1 ((x, y) :: L2) s s S1 [] (evA ++ []) hrun1 hcons
    refine ⟨S1, evA, ?_, rfl, rfl⟩
    unfold applyChanges
    rw [hL]
    simpa using htot
  rcases hchange with hrm | hcs
  · obtain ⟨htb, m, hm⟩ := hrm
    have hA := applyTile_remove s x y m htb hm
    obtain ⟨s1, ev, hfinal, hs1, hev⟩ := main _ _ hA
    subst hs1
    subst hev
    refine ⟨_, _, hfinal, ?_, ?_, ?_, ?_, ?_⟩
    · simp [SceneEvent.isRemove]
    · intro e he
      rcases List.mem_cons.mp he with rfl | he2
      · rfl
      · rcases List.mem_singleton.mp he2 with rfl
        rfl
    · intro _
      simp [SceneEvent.isAdd]
    · intro hcs
      exact absurd hcs (fun hq => hexcl ⟨htb, m, hm⟩ hq)
    · intro a b hab
      exact ⟨rfl, upd2_ne _ _ _ _ _ _ hab, upd2_ne _ _ _ _ _ _ hab⟩
  · obtain ⟨t, b, m, hc, hbb, hflag, hm, hrec⟩ := hcs
    obtain ⟨nm, A1, hcbm⟩ := createBuildingMesh_recognized s.assets t b hbb hrec
    have hA := applyTile_stale s x y t b m (some nm) A1 hc hbb hflag hm hcbm
    obtain ⟨s1, ev, hfinal, hs1, hev⟩ := main _ _ hA
    subst hs1
    subst hev
    refine ⟨_, _, hfinal, ?_, ?_, ?_, ?_, ?_⟩
    · by_cases hroad : b.type = "road" <;>
        simp [hroad, SceneEvent.isRemove, List.filter_append]
    · intro e he
      rcases List.mem_append.mp he with he1 | he2
      · rcases List.mem_append.mp he1 with he3 | he4
        · rcases List.mem_singleton.mp he3 with rfl
          rfl
        · rcases List.mem_singleton.mp he4 with rfl
          rfl
      · by_cases hroad : b.type = "road"
        · rw [if_pos hroad] at he2
          rcases List.mem_singleton.mp he2 with rfl
          rfl
        · rw [if_neg hroad] at he2
          simp at he2
    · intro hrm
      exact absurd hrm (fun hq => hexcl hq ⟨t, b, m, hc, hbb, hflag, hm, hrec⟩)
    · intro _
      by_cases hroad : b.type = "road" <;>
        simp [hroad, SceneEvent.isAdd, List.filter_append]
    · intro a b hab
      exact ⟨upd2_ne _ _ _ _ _ _ hab, upd2_ne _ _ _ _ _ _ hab, upd2_ne _ _ _ _ _ _ hab⟩

/-- **C6 witness**: the statement evaluated on the 1×1 stale-road world (a
stale single-tile change). -/
theorem applyChanges_minimal_diff_witness :
    ∃ s1 ev, applyChanges wState = .ok (s1, ev) ∧
      (ev.filter SceneEvent.isRemove).length = 1 ∧
      (∀ e ∈ ev, e.xy = (0, 0)) ∧
      (ChangedRemoval wState 0 0 → ev.filter SceneEvent.isAdd = []) ∧
      (ChangedStale wState 0 0 → (ev.filter SceneEvent.isAdd).length = 1) ∧
      (∀ a b, ¬(a = 0 ∧ b = 0) →
        s1.city a b = wState.city a b ∧ s1.buildings a b = wState.buildings a b ∧
        s1.terrainVisible a b = wState.terrainVisible a b) :=
  applyChanges_minimal_diff wState 0 0 (by decide) (by decide)
    (fun a b ha hb hab => by
      have h1 : wState.citySize = 1 := rfl
      rw [h1] at ha hb
      exact absurd ⟨by omega, by omega⟩ hab)
    (Or.inr ⟨{ x := 0, y := 0, building := some cRoad }, cRoad, dMesh, rfl, rfl, rfl, rfl,
      Or.inr ⟨rfl, twoPartTpl, rfl⟩⟩)

/-! ### C4 — stale road rebuild -/

/-- A present road template gives the explicit `createRoadMesh` result shape:
a mesh whose catalog key is `{road.type}-{road.style}` and whose `userData`
is the tile. -/
theorem createRoadMesh_name (A : Assets) (t : Tile) (r : Building) (tpl : Template)
    (hb : t.building = some r) (htpl : A.templates (roadModelName r) = some tpl) :
    ∃ nm A1, createRoadMesh A t = .ok (nm, A1) ∧ nm.name = roadModelName r ∧
      nm.userData = some t := by
  simp only [createRoadMesh, hb, cloneMesh, htpl]
  exact ⟨_, _, rfl, rfl, rfl⟩

/-- `createBuildingMesh` on a road with a loaded template: a non-null mesh
keyed `{road.type}-{road.style}`. -/
theorem createBuildingMesh_road (A : Assets) (t : Tile) (r : Building) (tpl : Template)
    (hb : t.building = some r) (hroad : r.type = "road")
    (htpl : A.templates (roadModelName r) = some tpl) :
    ∃ nm A1, createBuildingMesh A t = .ok (some nm, A1) ∧ nm.name = roadModelName r ∧
      nm.userData = some t := by
  have hz : ¬(r.type = "residential" ∨ r.type = "commercial" ∨ r.type = "industrial") := by
    simp [hroad]
  obtain ⟨nm, A1, hok, hname, hdata⟩ := createRoadMesh_name A t r tpl hb htpl
  exact ⟨nm, A1, by simp [createBuildingMesh, hb, if_neg hz, if_pos hroad, hok], hname, hdata⟩

/-- **C4**: for a tile holding a road flagged mesh-out-of-date with a cached
mesh in its slot (and its `{roadType}-{style}` template loaded), a completed
`applyChanges` pass removes the cached mesh from the scene graph, inserts a
fresh instance cloned from the `{roadType}-{style}` template, stores it in
the slot, clears the building's out-of-date flag in the world model, and
notifies the vehicle graph with `updateTile(x, y, road)` — and these are
exactly the events the pass issues at that coordinate, in that order. -/
theorem applyChanges_rebuilds_stale_road (s s1 : SceneState) (ev : List SceneEvent)
    (x y : Nat) (t : Tile) (b : Building) (m : MeshInstance)
    (hx : x < s.citySize) (hy : y < s.citySize)
    (hc : s.city x y = some t) (hb : t.building = some b) (hroad : b.type = "road")
    (hflag : b.isMeshOutOfDate = true) (hm : s.buildings x y = some m)
    (htpl : ∃ tpl, s.assets.templates (b.type ++ "-" ++ b.style) = some tpl)
    (hok : applyChanges s = .ok (s1, ev)) :
    ∃ fresh,
      fresh.name = b.type ++ "-" ++ b.style ∧
      s1.buildings x y = some fresh ∧
      s1.city x y = some { t with building := some { b with isMeshOutOfDate := false } } ∧
      eventsAt x y ev =
        [SceneEvent.removeMesh x y m, SceneEvent.addMesh x y fresh,
         SceneEvent.vgUpdateTile x y (some { b with isMeshOutOfDate := false })] := by
  obtain ⟨tpl, htpl⟩ := htpl
  have hmem : (x, y) ∈ coordList s.citySize := (mem_coordList _ x y).mpr ⟨hx, hy⟩
  obtain ⟨L1, L2, hL⟩ := List.append_of_mem hmem
  have hnd := coordList_nodup s.citySize
  rw [hL] at hnd
  obtain ⟨hnd1, hnd2, hdisj⟩ := List.nodup_append.mp hnd
  have hnotin1 : (x, y) ∉ L1 := fun hm1 => hdisj hm1 (List.mem_cons_self _ _)
  have hnotin2 : (x, y) ∉ L2 := (List.nodup_cons.mp hnd2).1
  unfold applyChanges at hok
  rw [hL] at hok
  obtain ⟨sMid, ev1, ev2, hr1, hr2, hevsplit⟩ := applyTiles_ok_split L1 _ s s1 ev hok
  obtain ⟨i1, i2, i3, i4, i5⟩ := applyTiles_ok_inv L1 s sMid ev1 hr1
  have hfr := i3 x y hnotin1
  have hcm : sMid.city x y = some t := hfr.1.trans hc
  have hmm : sMid.buildings x y = some m := hfr.2.1.trans hm
  have htplm : sMid.assets.templates (roadModelName b) = some tpl := by
    rw [i2]
    exact htpl
  obtain ⟨nm, A1, hcbm, hname, hdata⟩ :=
    createBuildingMesh_road sMid.assets t b tpl hb hroad htplm
  have hA := applyTile_stale sMid x y t b m (some nm) A1 hcm hb hflag hmm hcbm
  simp only [applyTiles, hA] at hr2
  cases hB : applyTiles
      { sMid with
        assets := A1,
        city := upd2 sMid.city x y
          (some { t with building := some { b with isMeshOutOfDate := false } }),
        buildings := upd2 sMid.buildings x y (some nm),
        terrainVisible := upd2 sMid.terrainVisible x y (visibleOf (sMid.city x y)) } L2 with
  | error e =>
    rw [hB] at hr2
    cases hr2
  | ok q =>
    obtain ⟨sq, ev3⟩ := q
    rw [hB] at hr2
    injection hr2 with hr2'
    injection hr2' with hs1 hev2
    subst hs1
    subst hev2
    obtain ⟨j1, j2, j3, j4, j5⟩ := applyTiles_ok_inv L2 _ _ _ hB
    have hfr2 := j3 x y hnotin2
    refine ⟨nm, by rw [hname]; rfl, ?_, ?_, ?_⟩
    · rw [hfr2.2.1]
      exact upd2_self _ _ _ _
    · rw [hfr2.1]
      exact upd2_self _ _ _ _
    · have hev1nil : eventsAt x y ev1 = [] := by
        apply eventsAt_nil_of_ne
        intro e he hq
        exact hnotin1 (hq ▸ i4 e he)
      have hev3nil : eventsAt x y ev3 = [] := by
        apply eventsAt_nil_of_ne
        intro e he hq
        exact hnotin2 (hq ▸ j4 e he)
      rw [hevsplit, eventsAt_append, eventsAt_append, hev1nil, hev3nil, if_pos hroad]
      simp [eventsAt, SceneEvent.xy]

/-- **C4 witness**: the rebuild statement evaluated on the 1×1 world holding
a stale road with a cached mesh and its `road-straight` template loaded. -/
theorem applyChanges_rebuilds_stale_road_witness :
    ∃ fresh,
      fresh.name = cRoad.type ++ "-" ++ cRoad.style ∧
      (okStateD (applyChanges wState) wState).buildings 0 0 = some fresh ∧
      (okStateD (applyChanges wState) wState).city 0 0 =
        some { x := 0, y := 0, building := some { cRoad with isMeshOutOfDate := false } } ∧
      eventsAt 0 0 (okEventsD (applyChanges wState)) =
        [SceneEvent.removeMesh 0 0 dMesh, SceneEvent.addMesh 0 0 fresh,
         SceneEvent.vgUpdateTile 0 0 (some { cRoad with isMeshOutOfDate := false })] :=
  applyChanges_rebuilds_stale_road wState
    (okStateD (applyChanges wState) wState) (okEventsD (applyChanges wState)) 0 0
    { x := 0, y := 0, building := some cRoad } cRoad dMesh
    (by decide) (by decide) rfl rfl rfl rfl rfl ⟨twoPartTpl, rfl⟩ rfl

end SimCity
